import Mathlib

/-!
Shallow embedding of the sports-league backend (teams, leagues, matches,
grounds, bookings, reviews).

Conventions of the embedding:
* Mongo `ObjectId`s are `Nat`; the `isValidObjectId` guards of the handlers
  are not modelled (all embedded ids are valid).
* JavaScript `Date` values are `Nat` milliseconds since the epoch; the
  server's local time zone is modelled as UTC, so `setHours(0,0,0,0)`
  becomes rounding down to a multiple of 86400000.
* `bcrypt.hash` and the ISO-date parser are external collaborators; they
  enter as function parameters (`hashC`, `hashS`) and as pre-parsed values
  with a validity flag (`JsDate`).
* Timestamps (`createdAt` / `updatedAt`) and response `populate` re-queries
  do not influence any claim and are not modelled.
* HTTP responses are modelled as a status code plus the handler's message
  string.
-/

namespace Backend

/-! ### JavaScript string primitives -/

/-- Whitespace test for the regex class `\s`, restricted to the ASCII range
(space, tab, line feed, carriage return, vertical tab, form feed).
Unicode space characters are not modelled. -/
def jsIsWs (c : Char) : Bool :=
  c == ' ' || c == '\t' || c == '\n' || c == '\r' || c.val == 11 || c.val == 12

/-- Word-character test for the regex class `\w`: ASCII alphanumeric or
underscore. -/
def jsWordChar (c : Char) : Bool :=
  c.isAlphanum || c == '_'

/-- Leading- and trailing-whitespace removal, the list-level core of
JavaScript `String.prototype.trim`. -/
def jsTrimList (l : List Char) : List Char :=
  ((l.dropWhile jsIsWs).reverse.dropWhile jsIsWs).reverse

/-- JavaScript `s.trim()`. -/
def jsTrim (s : String) : String :=
  ⟨jsTrimList s.data⟩

/-- Auxiliary scanner for `collapseWs`: the flag records whether the
previous character was whitespace, so each maximal whitespace run emits a
single space. -/
def collapseWsAux : Bool → List Char → List Char
  | _, [] => []
  | prevWs, c :: cs =>
    if jsIsWs c then
      if prevWs then collapseWsAux true cs
      else ' ' :: collapseWsAux true cs
    else c :: collapseWsAux false cs

/-- JavaScript `s.replace(/\s+/g, ' ')`: every maximal run of whitespace
becomes one space. -/
def collapseWs (l : List Char) : List Char :=
  collapseWsAux false l

/-- JavaScript `s.toLowerCase()`, restricted to ASCII case mapping. -/
def jsToLower (s : String) : String :=
  ⟨s.data.map Char.toLower⟩

/-- Case-insensitive string equality (ASCII). -/
def ciEq (a b : String) : Bool :=
  jsToLower a == jsToLower b

/-- Characters with no special meaning inside a `RegExp` literal: the
controllers interpolate the name unescaped into
`new RegExp('^' + name + '$', 'i')`, and exactly for patterns built from
these characters that regex's test coincides with ASCII case-insensitive
equality (`ciEq`).  For other patterns the engine's behaviour is left
abstract (see the `regexTest` parameter of the regex-based handlers). -/
def regexSafe (s : String) : Bool :=
  s.data.all fun c => c.isAlphanum || c == ' ' || c == '-' || c == '_'

/-- Test of the anchored email regex `/^\S+@\S+\.\S+$/`: the string has no
whitespace, an `@` preceded by at least one character, and after the `@` a
`.` preceded by at least one character and followed by at least one
character. -/
def jsEmailTest (s : String) : Bool :=
  let cs := s.data
  let n := cs.length
  (cs.all fun c => !jsIsWs c) &&
    ((List.range n).any fun i =>
      decide (1 ≤ i) && (cs.getD i ' ' == '@') &&
        ((List.range n).any fun j =>
          decide (i + 2 ≤ j) && decide (j + 2 ≤ n) && (cs.getD j ' ' == '.')))

/-- Test of the logo regex `/^https?:\/\/.+\.(jpg|jpeg|png|gif|webp)$/i`:
a scheme prefix, at least one character, then a dot and one of the image
extensions, everything compared case-insensitively.  The regex `.` is
modelled as matching any character (its newline exclusion is not
modelled). -/
def jsImageUrlTest (s : String) : Bool :=
  let low := (jsToLower s).data
  let exts := ["jpg", "jpeg", "png", "gif", "webp"]
  let tail8 : List Char := "https://".data
  let tail7 : List Char := "http://".data
  let schemeLen : Option Nat :=
    if tail8.isPrefixOf low then some 8
    else if tail7.isPrefixOf low then some 7
    else none
  match schemeLen with
  | none => false
  | some k =>
    exts.any fun e =>
      (('.' :: e.data).isSuffixOf low) && decide (k + e.length + 2 ≤ low.length)

/-- List-level core of `normalizeTeamName`: trim, collapse whitespace
runs, strip every character outside `[\w\s-]`, and lower-case. -/
def normalizeCore (l : List Char) : List Char :=
  ((collapseWs (jsTrimList l)).filter fun c =>
    jsWordChar c || jsIsWs c || c == '-').map Char.toLower

/-- Team-name normalization from the second team controller
(`normalizeTeamName`); the falsy guard returns the empty string. -/
def normalizeTeamName (s : String) : String :=
  if s = "" then "" else ⟨normalizeCore s.data⟩

/-- Truthiness of an optional string request field: present and non-empty. -/
def truthy : Option String → Bool
  | none => false
  | some s => s != ""

/-! ### Data model (documents of the Mongo collections) -/

/-- User document (the `User` model is not under `src/`; modelled from the
spec: identity, role, optional team reference). -/
structure User where
  uid : Nat
  name : String
  role : String
  team : Option Nat
deriving DecidableEq

/-- Team document, after `src/models/Team.js`. -/
structure Team where
  tid : Nat
  name : String
  captain : String
  password : String
  logo : String
  email : String
  players : List Nat
  currentLeague : Option Nat
  matchesPlayed : Nat
  wins : Nat
  losses : Nat
  draws : Nat
  goalsFor : Nat
  goalsAgainst : Nat
  isActive : Bool
deriving DecidableEq

/-- League document (the `League` model is not under `src/`; modelled from
the spec: name, description, dates, status in upcoming/active/completed,
team references). -/
structure League where
  lid : Nat
  name : String
  description : String
  startDate : Nat
  endDate : Nat
  status : String
  teams : List Nat
deriving DecidableEq

/-- Ground document (model not under `src/`; modelled from the spec and the
embedded ground controller's usage). -/
structure Ground where
  gid : Nat
  name : String
  location : String
  size : String
  pricePerHour : ℚ
  image : String
  features : List String
  isAvailable : Bool
  averageRating : ℚ
  reviewCount : Nat
deriving DecidableEq

/-- Review document (model not under `src/`; modelled from the spec: user
reference, ground reference, rating, comment). -/
structure Review where
  user : Nat
  ground : Nat
  rating : ℚ
  comment : String
deriving DecidableEq

/-- Booking document (model not under `src/`; modelled from the spec: user
reference, ground reference, date, time slot, amount, status). -/
structure Booking where
  user : Nat
  ground : Nat
  date : Nat
  time : String
  totalAmount : ℚ
  status : String
deriving DecidableEq

/-- Entry of a match's `joinedPlayers` array, after `src/models/Match.js`. -/
structure JoinedPlayer where
  user : Nat
  playerName : String
  teamName : String
  contactInfo : String
deriving DecidableEq

/-- Match document, after `src/models/Match.js`. -/
structure Match where
  mid : Nat
  name : String
  date : Nat
  time : String
  location : String
  matchType : String
  maxPlayers : Nat
  creator : Nat
  joinedPlayers : List JoinedPlayer
  status : String
  description : String
deriving DecidableEq

/-- Whole database state.  `fresh` models Mongo's id generation: every
created document receives `fresh` as its id. -/
structure DB where
  users : List User
  teams : List Team
  leagues : List League
  grounds : List Ground
  reviews : List Review
  bookings : List Booking
  matchDocs : List Match
  fresh : Nat
deriving DecidableEq

/-- HTTP response: status code plus the handler's message. -/
structure Resp where
  status : Nat
  message : String
deriving DecidableEq

/-! ### Team model (`src/models/Team.js`): setters, validation, create -/

/-- Schema setters of `src/models/Team.js`: `trim: true` on name, captain
and email, `lowercase: true` on email. -/
def applyTeamSetters (t : Team) : Team :=
  { t with
    name := jsTrim t.name
    captain := jsTrim t.captain
    email := jsToLower (jsTrim t.email) }

/-- Document validation of `src/models/Team.js`: required plus
minlength/maxlength on name and captain, required plus minlength 6 on
password, the logo URL validator and the email validator (both accept the
empty string). -/
def teamSchemaValid (t : Team) : Bool :=
  t.name != "" && decide (2 ≤ t.name.length) && decide (t.name.length ≤ 50) &&
  t.captain != "" && decide (2 ≤ t.captain.length) && decide (t.captain.length ≤ 50) &&
  t.password != "" && decide (6 ≤ t.password.length) &&
  (t.logo == "" || jsImageUrlTest t.logo) &&
  (t.email == "" || jsEmailTest t.email)

/-- Outcome of a failed `Team.create`: a mongoose `ValidationError` or a
Mongo duplicate-key error (code 11000) from the unique index on `name`. -/
inductive CreateErr where
  | validation
  | duplicateKey
deriving DecidableEq

/-- Model of `Team.create`: apply the schema setters, run validation (which
mongoose performs before the user pre-save hooks), check the unique index
on the raw stored name, then hash the password with the pre-save hook
`hashS` and append the document. -/
def teamCreate (hashS : String → String) (db : DB) (t : Team) : Except CreateErr DB :=
  let t := applyTeamSetters t
  if !(teamSchemaValid t) then .error .validation
  else if db.teams.any fun u => u.name == t.name then .error .duplicateKey
  else .ok { db with
    teams := db.teams ++ [{ t with password := hashS t.password }]
    fresh := db.fresh + 1 }

/-- Request body of the team endpoints; `none` is a field absent from the
JSON body (`undefined`). -/
structure TeamReq where
  name : Option String
  captain : Option String
  password : Option String
  logo : Option String
  email : Option String
deriving DecidableEq

/-! ### Team controller, first variant
(`src/controllers/teamController.js`, lines 1-521) -/

namespace TeamController1

/-- Truth of `validateTeamData(data, isUpdate).length > 0`: only whether
the error list is empty is modelled, since the handlers branch on exactly
that. -/
def validateTeamDataFails (d : TeamReq) (isUpdate : Bool) : Bool :=
  let nm := jsTrim (d.name.getD "")
  let cp := jsTrim (d.captain.getD "")
  let nameChecked := !isUpdate || d.name != none
  let captChecked := !isUpdate || d.captain != none
  let e1 := nameChecked && (!(truthy d.name) || decide (nm.length < 2))
  let e2 := nameChecked && truthy d.name && decide (50 < nm.length)
  let e3 := captChecked && (!(truthy d.captain) || decide (cp.length < 2))
  let e4 := captChecked && truthy d.captain && decide (50 < cp.length)
  let e5 := !isUpdate && (!(truthy d.password) || decide ((d.password.getD "").length < 6))
  let e6 := truthy d.email && jsTrim (d.email.getD "") != "" &&
    !(jsEmailTest (jsTrim (d.email.getD "")))
  let e7 := truthy d.logo && jsTrim (d.logo.getD "") != "" &&
    !(jsImageUrlTest (jsTrim (d.logo.getD "")))
  e1 || e2 || e3 || e4 || e5 || e6 || e7

/-- Sanitized copy of the present request fields (`sanitizeTeamData`):
name and captain are trimmed and whitespace-collapsed, the password is
trimmed, the email is trimmed and lower-cased, the logo is trimmed. -/
structure Sanitized where
  name : Option String
  captain : Option String
  password : Option String
  email : Option String
  logo : Option String
deriving DecidableEq

/-- Model of `sanitizeTeamData`. -/
def sanitizeTeamData (d : TeamReq) : Sanitized :=
  { name := d.name.map fun s => ⟨collapseWs (jsTrimList s.data)⟩
    captain := d.captain.map fun s => ⟨collapseWs (jsTrimList s.data)⟩
    password := d.password.map jsTrim
    email := d.email.map fun s => jsToLower (jsTrim s)
    logo := d.logo.map jsTrim }

/-- Model of the first `createTeam` (admin-only): validate, sanitize,
reject when the duplicate search finds a name match, reject on an exact
email match, then `Team.create` (the schema pre-save hook hashes the
password).  The duplicate search interpolates the sanitized name unescaped
into `new RegExp('^' + name + '$', 'i')` and tests it against each stored
name; the regex engine is an external collaborator, passed as
`regexTest pattern subject` — for `regexSafe` patterns it coincides with
`ciEq`, for others it is left abstract. -/
def createTeam (regexTest : String → String → Bool) (hashS : String → String)
    (db : DB) (req : TeamReq) : Resp × DB :=
  if validateTeamDataFails req false then (⟨400, "Validation failed"⟩, db)
  else
    let s := sanitizeTeamData req
    match db.teams.find? fun t => regexTest (s.name.getD "") t.name with
    | some _ => (⟨400, "A team with this name already exists"⟩, db)
    | none =>
      if truthy s.email &&
          (db.teams.find? fun t => t.email == s.email.getD "").isSome then
        (⟨400, "A team with this email already exists"⟩, db)
      else
        let t : Team :=
          { tid := db.fresh
            name := s.name.getD ""
            captain := s.captain.getD ""
            password := s.password.getD ""
            logo := s.logo.getD ""
            email := s.email.getD ""
            players := []
            currentLeague := none
            matchesPlayed := 0, wins := 0, losses := 0, draws := 0
            goalsFor := 0, goalsAgainst := 0
            isActive := true }
        match teamCreate hashS db t with
        | .error .duplicateKey => (⟨400, "A team with this name already exists"⟩, db)
        | .error .validation => (⟨400, "Validation failed"⟩, db)
        | .ok db1 => (⟨201, "Team created successfully"⟩, db1)

/-- Model of the first `updateTeam`: find, validate, sanitize, check name
and email conflicts excluding the team's own id, drop the password from
the sanitized data, then `findByIdAndUpdate` with validators (update
validation and the unique name index are modelled on the merged
document). -/
def updateTeam (db : DB) (id : Nat) (req : TeamReq) : Resp × DB :=
  match db.teams.find? fun t => t.tid == id with
  | none => (⟨404, "Team not found"⟩, db)
  | some existingTeam =>
    if validateTeamDataFails req true then (⟨400, "Validation failed"⟩, db)
    else
      let s := sanitizeTeamData req
      if truthy s.name && s.name.getD "" != existingTeam.name &&
          (db.teams.find? fun t => ciEq t.name (s.name.getD "") && t.tid != id).isSome then
        (⟨400, "A team with this name already exists"⟩, db)
      else if truthy s.email && s.email.getD "" != existingTeam.email &&
          (db.teams.find? fun t => t.email == s.email.getD "" && t.tid != id).isSome then
        (⟨400, "A team with this email already exists"⟩, db)
      else
        let newT : Team :=
          { existingTeam with
            name := s.name.getD existingTeam.name
            captain := s.captain.getD existingTeam.captain
            email := s.email.getD existingTeam.email
            logo := s.logo.getD existingTeam.logo }
        if !(teamSchemaValid newT) then (⟨400, "Validation failed"⟩, db)
        else if db.teams.any fun t => t.name == newT.name && t.tid != id then
          (⟨400, "A team with this name already exists"⟩, db)
        else
          (⟨200, "Team updated successfully"⟩,
            { db with teams := db.teams.map fun t => if t.tid == id then newT else t })

/-- Model of the first `deleteTeam` (transactional soft delete): unset the
team reference on every user pointing at the team, pull the team from
every league roster, and mark the team inactive. -/
def deleteTeam (db : DB) (id : Nat) : Resp × DB :=
  match db.teams.find? fun t => t.tid == id with
  | none => (⟨404, "Team not found"⟩, db)
  | some _ =>
    (⟨200, "Team deleted successfully"⟩,
      { db with
        users := db.users.map fun u =>
          if u.team == some id then { u with team := none } else u
        leagues := db.leagues.map fun l =>
          { l with teams := l.teams.filter fun t => t ≠ id }
        teams := db.teams.map fun t =>
          if t.tid == id then { t with isActive := false } else t })

end TeamController1

/-! ### Team controller, second variant
(`src/controllers/teamController.js`, lines 522-803), the variant built
around `normalizeTeamName` -/

namespace TeamController2

/-- Predicate of the duplicate search in the second `createTeam` and
`updateTeam`: an existing team matches when both its normalized name and
the normalized candidate are non-empty and equal (the JS guard
`if (!team.name || !normalizedNewName) return false` and the conjunction
`normalizedExistingName && normalizedNewName && normalizedExistingName ===
normalizedNewName`). -/
def dupMatch (normalizedNewName : String) (team : Team) : Bool :=
  if team.name == "" || normalizedNewName == "" then false
  else
    let ne := normalizeTeamName team.name
    ne != "" && normalizedNewName != "" && ne == normalizedNewName

/-- Model of the second `createTeam`: required fields, trimmed name
non-empty, duplicate search by `normalizeTeamName` over all teams, email
format check, bcrypt hash (`hashC`), then `Team.create` (whose pre-save
hook hashes again with `hashS`). -/
def createTeam (hashC hashS : String → String) (db : DB)
    (name captain password : String) (logo email : Option String) : Resp × DB :=
  if name == "" || captain == "" || password == "" then
    (⟨400, "Team name, captain, and password are required"⟩, db)
  else
    let trimmedName := jsTrim name
    if trimmedName == "" then (⟨400, "Team name cannot be empty"⟩, db)
    else
      let normalizedNewName := normalizeTeamName trimmedName
      match db.teams.find? (dupMatch normalizedNewName) with
      | some _ => (⟨400, "A team with this name already exists"⟩, db)
      | none =>
        if truthy email && !(jsEmailTest (jsTrim (email.getD ""))) then
          (⟨400, "Please provide a valid email address"⟩, db)
        else
          let t : Team :=
            { tid := db.fresh
              name := trimmedName
              captain := jsTrim captain
              email := if truthy email then jsToLower (jsTrim (email.getD "")) else ""
              password := hashC password
              logo := if truthy logo then jsTrim (logo.getD "") else ""
              players := []
              currentLeague := none
              matchesPlayed := 0, wins := 0, losses := 0, draws := 0
              goalsFor := 0, goalsAgainst := 0
              isActive := true }
          match teamCreate hashS db t with
          | .error .duplicateKey => (⟨400, "A team with this name already exists"⟩, db)
          | .error .validation => (⟨500, "Server error"⟩, db)
          | .ok db1 => (⟨201, "Team created successfully"⟩, db1)

/-- Model of the second `updateTeam`: required name and captain, duplicate
search by `normalizeTeamName` excluding the team's own id, email format
check, then `findByIdAndUpdate` without validators (the unique name index
is still modelled); a logo that is absent or empty leaves the stored logo
unchanged (`undefined` update value). -/
def updateTeam (db : DB) (id : Nat)
    (name captain logo email : Option String) : Resp × DB :=
  if !(truthy name) || !(truthy captain) then
    (⟨400, "Team name and captain are required"⟩, db)
  else
    let trimmedName := jsTrim (name.getD "")
    let trimmedCaptain := jsTrim (captain.getD "")
    if trimmedName == "" || trimmedCaptain == "" then
      (⟨400, "Name and captain cannot be empty"⟩, db)
    else
      let normalizedNewName := normalizeTeamName trimmedName
      match (db.teams.filter fun t => t.tid != id).find? (dupMatch normalizedNewName) with
      | some _ => (⟨400, "A team with this name already exists"⟩, db)
      | none =>
        if truthy email && !(jsEmailTest (jsTrim (email.getD ""))) then
          (⟨400, "Please provide a valid email address"⟩, db)
        else
          match db.teams.find? fun t => t.tid == id with
          | none => (⟨404, "Team not found"⟩, db)
          | some existingTeam =>
            let newT : Team :=
              { existingTeam with
                name := trimmedName
                captain := trimmedCaptain
                logo := if truthy logo then jsTrim (logo.getD "") else existingTeam.logo
                email :=
                  match email with
                  | none => existingTeam.email
                  | some e => if e != "" then jsToLower (jsTrim e) else "" }
            if db.teams.any fun t => t.name == newT.name && t.tid != id then
              (⟨400, "A team with this name already exists"⟩, db)
            else
              (⟨200, "Team updated successfully"⟩,
                { db with teams := db.teams.map fun t => if t.tid == id then newT else t })

/-- Model of the second `deleteTeam` (hard delete): unset the team
reference on every user pointing at the team, pull the team from every
league roster, then delete the team document. -/
def deleteTeam (db : DB) (id : Nat) : Resp × DB :=
  match db.teams.find? fun t => t.tid == id with
  | none => (⟨404, "Team not found"⟩, db)
  | some _ =>
    (⟨200, "Team deleted successfully"⟩,
      { db with
        users := db.users.map fun u =>
          if u.team == some id then { u with team := none } else u
        leagues := db.leagues.map fun l =>
          { l with teams := l.teams.filter fun t => t ≠ id }
        teams := db.teams.filter fun t => t.tid != id })

end TeamController2

/-! ### Team handlers embedded in `src/controllers/bookingController.js`
(lines 92-320): `updateTeam` without any password field in the update, and
`deleteTeam` without league cleanup -/

namespace BookingTeams

/-- Model of the booking-file `updateTeam`: required name and captain,
email format check, case-insensitive duplicate name search excluding the
team's own id, then `findByIdAndUpdate` with validators on an update that
always sets name, captain, logo and email and never the password. -/
def updateTeam (db : DB) (id : Nat)
    (name captain logo email : Option String) : Resp × DB :=
  if !(truthy name) || jsTrim (name.getD "") == "" then
    (⟨400, "Team name is required"⟩, db)
  else if !(truthy captain) || jsTrim (captain.getD "") == "" then
    (⟨400, "Captain name is required"⟩, db)
  else
    let sanitizedName : String := ⟨collapseWs (jsTrimList (name.getD "").data)⟩
    let sanitizedCaptain : String := ⟨collapseWs (jsTrimList (captain.getD "").data)⟩
    let sanitizedEmail := if truthy email then jsToLower (jsTrim (email.getD "")) else ""
    if sanitizedEmail != "" && !(jsEmailTest sanitizedEmail) then
      (⟨400, "Please provide a valid email address"⟩, db)
    else if (db.teams.find? fun t => ciEq t.name sanitizedName && t.tid != id).isSome then
      (⟨400, "A team with this name already exists"⟩, db)
    else
      match db.teams.find? fun t => t.tid == id with
      | none => (⟨404, "Team not found"⟩, db)
      | some existingTeam =>
        let newT : Team :=
          { existingTeam with
            name := sanitizedName
            captain := sanitizedCaptain
            logo := if truthy logo then jsTrim (logo.getD "") else ""
            email := sanitizedEmail }
        if !(teamSchemaValid newT) then (⟨400, "Validation failed"⟩, db)
        else if db.teams.any fun t => t.name == newT.name && t.tid != id then
          (⟨400, "A team with this name already exists"⟩, db)
        else
          (⟨200, "Team updated successfully"⟩,
            { db with teams := db.teams.map fun t => if t.tid == id then newT else t })

/-- Model of the booking-file `deleteTeam`: unset the team reference on
every user pointing at the team, then delete the team document.  Unlike
the two team-controller variants, it performs no league-roster cleanup. -/
def deleteTeam (db : DB) (id : Nat) : Resp × DB :=
  match db.teams.find? fun t => t.tid == id with
  | none => (⟨404, "Team not found"⟩, db)
  | some _ =>
    (⟨200, "Team deleted successfully"⟩,
      { db with
        users := db.users.map fun u =>
          if u.team == some id then { u with team := none } else u
        teams := db.teams.filter fun t => t.tid != id })

end BookingTeams

/-! ### League controller (`src/controllers/leagueController.js`, lines 1-256) -/

/-- Request date field: a value the external `Date` parser produced, with
`valid` standing for the result of the controller's `isValidDate` check
(ISO-8601 format and parseability) and `ms` the parsed timestamp.  An
absent or empty (falsy) field is `none` at the call site. -/
structure JsDate where
  valid : Bool
  ms : Nat
deriving DecidableEq

namespace LeagueController

/-- Model of `createLeague`: required name and dates, `isValidDate` on
both, rejection of `end <= start`, then creation with the derived status
(`active` when `startDate <= now`, else `upcoming`). -/
def createLeague (db : DB) (name : String) (description : Option String)
    (startDate endDate : Option JsDate) (now : Nat) : Resp × DB :=
  match startDate, endDate with
  | some sd, some ed =>
    if name == "" then
      (⟨400, "Missing required fields: name, startDate, and endDate are required"⟩, db)
    else if !sd.valid || !ed.valid then
      (⟨400, "Invalid startDate or endDate format. Use ISO 8601 (e.g., YYYY-MM-DD)"⟩, db)
    else if decide (ed.ms ≤ sd.ms) then
      (⟨400, "endDate must be after startDate"⟩, db)
    else
      (⟨201, "League created successfully"⟩,
        { db with
          leagues := db.leagues ++
            [{ lid := db.fresh
               name := name
               description := description.getD ""
               startDate := sd.ms
               endDate := ed.ms
               status := if decide (sd.ms ≤ now) then "active" else "upcoming"
               teams := [] }]
          fresh := db.fresh + 1 })
  | _, _ =>
    (⟨400, "Missing required fields: name, startDate, and endDate are required"⟩, db)

/-- Model of `updateLeague`: find, validate any provided date, re-check
the `end <= start` invariant on the merged existing and incoming values,
then update (a falsy name or status keeps the stored value, a provided
description always overwrites). -/
def updateLeague (db : DB) (id : Nat) (name description : Option String)
    (startDate endDate : Option JsDate) (status : Option String) : Resp × DB :=
  match db.leagues.find? fun l => l.lid == id with
  | none => (⟨404, "League not found"⟩, db)
  | some league =>
    if startDate.elim false (fun d => !d.valid) then
      (⟨400, "Invalid startDate format. Use ISO 8601 (e.g., YYYY-MM-DD)"⟩, db)
    else if endDate.elim false (fun d => !d.valid) then
      (⟨400, "Invalid endDate format. Use ISO 8601 (e.g., YYYY-MM-DD)"⟩, db)
    else
      let s := startDate.elim league.startDate (fun d => d.ms)
      let e := endDate.elim league.endDate (fun d => d.ms)
      if decide (e ≤ s) then
        (⟨400, "endDate must be after startDate"⟩, db)
      else
        let newL : League :=
          { league with
            name := if truthy name then name.getD "" else league.name
            description := description.getD league.description
            startDate := s
            endDate := e
            status := if truthy status then status.getD "" else league.status }
        (⟨200, "League updated successfully"⟩,
          { db with leagues := db.leagues.map fun l => if l.lid == id then newL else l })

/-- Model of `joinLeague`: the user must exist and `populate('team')` must
yield a team (a missing or dangling reference gives the
must-be-part-of-a-team rejection); the requester must be the captain; the
team must have no `currentLeague`; the league must exist, not already
contain the team, and not be completed.  On success the team id is pushed
into the league roster and the team's `currentLeague` is set. -/
def joinLeague (db : DB) (id : Nat) (userId : Nat) : Resp × DB :=
  match db.users.find? fun u => u.uid == userId with
  | none => (⟨404, "User not found"⟩, db)
  | some user =>
    match user.team.bind fun tid => db.teams.find? fun t => t.tid == tid with
    | none => (⟨400, "You must be part of a team to join a league"⟩, db)
    | some team =>
      if team.captain != user.name then
        (⟨403, "Only team captains can join leagues"⟩, db)
      else if team.currentLeague != none then
        (⟨400, "Team is already participating in another league"⟩, db)
      else
        match db.leagues.find? fun l => l.lid == id with
        | none => (⟨404, "League not found"⟩, db)
        | some league =>
          if league.teams.contains team.tid then
            (⟨400, "Team is already in this league"⟩, db)
          else if league.status == "completed" then
            (⟨400, "Cannot join a completed league"⟩, db)
          else
            (⟨200, "Successfully joined league"⟩,
              { db with
                leagues := db.leagues.map fun l =>
                  if l.lid == id then { l with teams := l.teams ++ [team.tid] } else l
                teams := db.teams.map fun t =>
                  if t.tid == team.tid then { t with currentLeague := some id } else t })

end LeagueController

/-! ### Ground controller embedded in `src/controllers/leagueController.js`
(lines 257-475) -/

namespace GroundController

/-- JS average `reviews.reduce((sum, r) => sum + r.rating, 0) / reviews.length || 0`:
rational division by zero is 0, which coincides with the `|| 0` fallback
on the empty list. -/
def jsAverage (l : List ℚ) : ℚ :=
  l.sum / (l.length : ℚ)

/-- Model of `deleteGround`: 404 when the ground is absent; 400 and no
change when any booking references the ground or any match's location
equals the ground's name; otherwise delete the ground's reviews and then
the ground. -/
def deleteGround (db : DB) (id : Nat) : Resp × DB :=
  match db.grounds.find? fun g => g.gid == id with
  | none => (⟨404, "Ground not found"⟩, db)
  | some ground =>
    let bookings := db.bookings.filter fun b => b.ground == id
    let matchesHere := db.matchDocs.filter fun m => m.location == ground.name
    if decide (0 < bookings.length) || decide (0 < matchesHere.length) then
      (⟨400, "Cannot delete ground with active bookings or matches"⟩, db)
    else
      (⟨200, "Ground deleted successfully"⟩,
        { db with
          reviews := db.reviews.filter fun r => r.ground != id
          grounds := db.grounds.filter fun g => g.gid != id })

/-- Model of `createReview`: rating must be a number in [1, 5] (`none`
stands for a missing or non-numeric body value); the ground must exist;
the review is created, then the ground's `averageRating` and `reviewCount`
are recomputed from all reviews of that ground. -/
def createReview (db : DB) (id : Nat) (rating : Option ℚ)
    (comment : Option String) (userId : Nat) : Resp × DB :=
  match rating with
  | none => (⟨400, "Rating must be a number between 1 and 5"⟩, db)
  | some r =>
    if decide (r < 1) || decide (5 < r) then
      (⟨400, "Rating must be a number between 1 and 5"⟩, db)
    else
      match db.grounds.find? fun g => g.gid == id with
      | none => (⟨404, "Ground not found"⟩, db)
      | some _ =>
        let db1 : DB :=
          { db with reviews := db.reviews ++
              [{ user := userId, ground := id, rating := r, comment := comment.getD "" }] }
        let reviewsHere := db1.reviews.filter fun v => v.ground == id
        let averageRating := jsAverage (reviewsHere.map fun v => v.rating)
        (⟨201, "Review submitted successfully"⟩,
          { db1 with grounds := db1.grounds.map fun g =>
              if g.gid == id then
                { g with averageRating := averageRating, reviewCount := reviewsHere.length }
              else g })

end GroundController

/-! ### Booking controller (`src/controllers/bookingController.js`, lines 1-91) -/

namespace BookingController

/-- Midnight of the calendar day containing `t`, in milliseconds
(`bookingDate.setHours(0, 0, 0, 0)` with the server in UTC). -/
def dayStart (t : Nat) : Nat :=
  t / 86400000 * 86400000

/-- Model of `createBooking`: 404 when the ground is absent; 400 when a
non-cancelled booking for the same ground and time slot exists with a date
in `[dayStart, dayStart + 86399999)` — the upper bound
`setHours(23, 59, 59, 999)` is excluded by the `$lt` operator; otherwise a
confirmed booking is created with the ground's current price. -/
def createBooking (db : DB) (groundId : Nat) (date : Nat) (time : String)
    (userId : Nat) : Resp × DB :=
  match db.grounds.find? fun g => g.gid == groundId with
  | none => (⟨404, "Ground not found"⟩, db)
  | some ground =>
    let ds := dayStart date
    match db.bookings.find? fun b =>
        b.ground == groundId && decide (ds ≤ b.date) &&
        decide (b.date < ds + 86399999) && b.time == time &&
        b.status != "cancelled" with
    | some _ => (⟨400, "Already booked for this date and time"⟩, db)
    | none =>
      (⟨201, "Booking created successfully"⟩,
        { db with bookings := db.bookings ++
            [{ user := userId, ground := groundId, date := date, time := time,
               totalAmount := ground.pricePerHour, status := "confirmed" }] })

end BookingController

/-! ### Match controller (`src/controllers/matchController.js`) -/

namespace MatchController

/-- Parse of a strict `HH:MM` time for the join-time check: the handler
builds `new Date(dayString + 'T' + time + ':00')`, which yields a valid
date exactly for two-digit hours up to 23 and minutes up to 59 (the
spec-format `Date` parsing; engine-specific lenient forms are not
modelled).  The result is minutes after midnight. -/
def parseHHMM (s : String) : Option Nat :=
  match s.data with
  | [h1, h2, ':', m1, m2] =>
    if h1.isDigit && h2.isDigit && m1.isDigit && m2.isDigit then
      let h := (h1.toNat - 48) * 10 + (h2.toNat - 48)
      let m := (m1.toNat - 48) * 10 + (m2.toNat - 48)
      if decide (h ≤ 23) && decide (m ≤ 59) then some (h * 60 + m) else none
    else none
  | _ => none

/-- Combined date-time of a match, in milliseconds: the match's calendar
day plus its `HH:MM` time; `none` when the time string does not parse (the
JS comparison with an invalid date is then false, so the has-passed check
is skipped). -/
def matchDateTime (m : Match) : Option Nat :=
  (parseHHMM m.time).map fun t => BookingController.dayStart m.date + t * 60000

/-- Model of `joinMatch`: required player name and contact info; 404 when
the match is absent; 400 when the match is full, the user already joined,
the status is not `upcoming`, or the match date-time has passed; on
success the player entry is pushed. -/
def joinMatch (db : DB) (id : Nat) (userId : Nat)
    (playerName contactInfo : String) (teamName : Option String)
    (now : Nat) : Resp × DB :=
  if playerName == "" || contactInfo == "" then
    (⟨400, "Player name and contact info are required"⟩, db)
  else
    match db.matchDocs.find? fun m => m.mid == id with
    | none => (⟨404, "Match not found"⟩, db)
    | some m =>
      if decide (m.maxPlayers ≤ m.joinedPlayers.length) then
        (⟨400, "Match is already full"⟩, db)
      else if m.joinedPlayers.any fun p => p.user == userId then
        (⟨400, "You have already joined this match"⟩, db)
      else if m.status != "upcoming" then
        (⟨400, "Cannot join a match that is not upcoming"⟩, db)
      else if (matchDateTime m).elim false fun dt => decide (dt < now) then
        (⟨400, "Cannot join a match that has already started or passed"⟩, db)
      else
        (⟨200, "Successfully joined the match"⟩,
          { db with matchDocs := db.matchDocs.map fun x =>
              if x.mid == id then
                { x with joinedPlayers := x.joinedPlayers ++
                    [{ user := userId, playerName := playerName,
                       teamName := teamName.getD "", contactInfo := contactInfo }] }
              else x })

/-- Model of `updateMatch`: 404 when absent, 403 unless the requester is
the creator or an admin; each truthy field overwrites the stored one (a
provided description always overwrites); `maxPlayers` is overwritten only
when `matchType` is also provided and the value is truthy (non-zero) —
with no check against the current number of joined players. -/
def updateMatch (db : DB) (id : Nat) (userId : Nat) (role : String)
    (name : Option String) (date : Option Nat) (time location : Option String)
    (matchType : Option String) (description : Option String)
    (status : Option String) (maxPlayers : Option Nat) : Resp × DB :=
  match db.matchDocs.find? fun m => m.mid == id with
  | none => (⟨404, "Match not found"⟩, db)
  | some m =>
    if m.creator != userId && role != "admin" then
      (⟨403, "Only the match creator or admin can update this match"⟩, db)
    else
      let newM : Match :=
        { m with
          name := if truthy name then name.getD "" else m.name
          date := match date with | some d => if d != 0 then d else m.date | none => m.date
          time := if truthy time then time.getD "" else m.time
          location := if truthy location then location.getD "" else m.location
          description := description.getD m.description
          status := if truthy status then status.getD "" else m.status
          matchType := if truthy matchType then matchType.getD "" else m.matchType
          maxPlayers :=
            if truthy matchType then
              match maxPlayers with
              | some n => if n != 0 then n else m.maxPlayers
              | none => m.maxPlayers
            else m.maxPlayers }
      (⟨200, "Match updated successfully"⟩,
        { db with matchDocs := db.matchDocs.map fun x => if x.mid == id then newM else x })

end MatchController

/-! ### Concrete sample states for witnesses and counterexamples -/

/-- Empty database. -/
def emptyDB : DB :=
  { users := [], teams := [], leagues := [], grounds := [], reviews := [],
    bookings := [], matchDocs := [], fresh := 0 }

/-- Team whose name consists only of punctuation: `normalizeTeamName`
maps it to the empty string. -/
def qqqTeam : Team :=
  { tid := 0, name := "???", captain := "Alex", password := "hashedpw",
    logo := "", email := "", players := [], currentLeague := none,
    matchesPlayed := 0, wins := 0, losses := 0, draws := 0,
    goalsFor := 0, goalsAgainst := 0, isActive := true }

/-- State holding only `qqqTeam`. -/
def dbPunct : DB := { emptyDB with teams := [qqqTeam], fresh := 1 }

/-- Team captained by Alice, in no league. -/
def eaglesTeam : Team :=
  { tid := 2, name := "Eagles", captain := "Alice", password := "secret1",
    logo := "", email := "", players := [1], currentLeague := none,
    matchesPlayed := 0, wins := 0, losses := 0, draws := 0,
    goalsFor := 0, goalsAgainst := 0, isActive := true }

/-- Regular member (not the captain) of `eaglesTeam`. -/
def bobUser : User :=
  { uid := 1, name := "Bob", role := "user", team := some 2 }

/-- Captain user of `eaglesTeam`. -/
def aliceUser : User :=
  { uid := 5, name := "Alice", role := "user", team := some 2 }

/-- Active league with an empty roster. -/
def springLeague : League :=
  { lid := 3, name := "Spring", description := "", startDate := 0,
    endDate := 10, status := "active", teams := [] }

/-- State with Bob and Alice in the Eagles and one open league. -/
def dbLeagueJoin : DB :=
  { emptyDB with
    users := [bobUser, aliceUser]
    teams := [eaglesTeam]
    leagues := [springLeague]
    fresh := 6 }

/-- League whose roster contains the Eagles. -/
def rosterLeague : League :=
  { lid := 3, name := "Spring", description := "", startDate := 0,
    endDate := 10, status := "active", teams := [2] }

/-- State where the Eagles are rostered in a league, for the delete-team
cascade. -/
def dbRostered : DB :=
  { emptyDB with
    users := [bobUser]
    teams := [eaglesTeam]
    leagues := [rosterLeague]
    fresh := 6 }

/-- Bookable ground. -/
def pitchGround : Ground :=
  { gid := 7, name := "Pitch", location := "Town", size := "11v11",
    pricePerHour := 50, image := "", features := [], isAvailable := true,
    averageRating := 0, reviewCount := 0 }

/-- Confirmed booking whose date is the final millisecond of day zero
(23:59:59.999). -/
def lastMsBooking : Booking :=
  { user := 1, ground := 7, date := 86399999, time := "10:00",
    totalAmount := 50, status := "confirmed" }

/-- State with one ground and the final-millisecond booking. -/
def dbLastMs : DB :=
  { emptyDB with grounds := [pitchGround], bookings := [lastMsBooking], fresh := 8 }

/-- Two distinct joined players. -/
def playerOne : JoinedPlayer :=
  { user := 1, playerName := "Ann", teamName := "", contactInfo := "a@x.y" }

/-- Second joined player. -/
def playerTwo : JoinedPlayer :=
  { user := 2, playerName := "Ben", teamName := "", contactInfo := "b@x.y" }

/-- Upcoming match at capacity: two joined players, `maxPlayers = 2`. -/
def fullMatch : Match :=
  { mid := 1, name := "Friendly", date := 0, time := "10:00",
    location := "Pitch", matchType := "11v11", maxPlayers := 2, creator := 9,
    joinedPlayers := [playerOne, playerTwo], status := "upcoming",
    description := "" }

/-- State with the full match. -/
def dbFullMatch : DB := { emptyDB with matchDocs := [fullMatch], fresh := 10 }

/-- Review of the pitch. -/
def pitchReview : Review :=
  { user := 1, ground := 7, rating := 4, comment := "fine" }

/-- State with the ground and one review, but no bookings or matches. -/
def dbReviewed : DB :=
  { emptyDB with grounds := [pitchGround], reviews := [pitchReview], fresh := 9 }

/-- Mid-morning confirmed booking on day zero. -/
def noonBooking : Booking :=
  { user := 1, ground := 7, date := 36000000, time := "10:00",
    totalAmount := 50, status := "confirmed" }

/-- State with the ground and the mid-morning booking. -/
def dbNoon : DB :=
  { emptyDB with grounds := [pitchGround], bookings := [noonBooking], fresh := 8 }

/-- Bob after the delete-team cascade cleared his team reference. -/
def bobCleared : User :=
  { uid := 1, name := "Bob", role := "user", team := none }

/-- The rostered league after the delete-team cascade emptied it. -/
def clearedLeague : League :=
  { lid := 3, name := "Spring", description := "", startDate := 0,
    endDate := 10, status := "active", teams := [] }

/-- The pitch after a second review of rating 2 joined the stored rating
4: mean 3 over 2 reviews. -/
def ratedGround : Ground :=
  { pitchGround with averageRating := 3, reviewCount := 2 }

/-- Invariant of the match collection claimed by the spec:
`joinedPlayers.length ≤ maxPlayers` and at most one entry per user. -/
def matchInv (m : Match) : Prop :=
  m.joinedPlayers.length ≤ m.maxPlayers ∧
  (m.joinedPlayers.map fun p => p.user).Nodup

instance (m : Match) : Decidable (matchInv m) := by
  unfold matchInv
  infer_instance

/-- The Eagles after an update renamed them, password untouched. -/
def hawksTeam : Team := { eaglesTeam with name := "Hawks" }

/-! ### C7: status derived at league creation -/

/-- C7: every successful `createLeague` stores a league whose status is
`active` when `startDate <= now` (the creation-time clock) and `upcoming`
otherwise; here with both dates present and valid and `startDate <
endDate`, the request succeeds (201) and appends exactly that league. -/
theorem C7_createLeague_status (db : DB) (name : String)
    (description : Option String) (s e now : Nat)
    (hname : name ≠ "") (hlt : s < e) :
    (LeagueController.createLeague db name description
        (some ⟨true, s⟩) (some ⟨true, e⟩) now).1.status = 201 ∧
    (LeagueController.createLeague db name description
        (some ⟨true, s⟩) (some ⟨true, e⟩) now).2.leagues =
      db.leagues ++
        [{ lid := db.fresh
           name := name
           description := description.getD ""
           startDate := s
           endDate := e
           status := if s ≤ now then "active" else "upcoming"
           teams := [] }] := by
  have h1 : (name == "") = false := beq_eq_false_iff_ne.mpr hname
  have h2 : ¬ (e ≤ s) := Nat.not_le.mpr hlt
  simp [LeagueController.createLeague, h1, h2]

/-- Closed instance of `C7_createLeague_status` at a concrete input. -/
theorem C7_witness :
    (LeagueController.createLeague emptyDB "Spring" none
        (some ⟨true, 3⟩) (some ⟨true, 9⟩) 5).1.status = 201 ∧
    (LeagueController.createLeague emptyDB "Spring" none
        (some ⟨true, 3⟩) (some ⟨true, 9⟩) 5).2.leagues =
      emptyDB.leagues ++
        [{ lid := emptyDB.fresh
           name := "Spring"
           description := (none : Option String).getD ""
           startDate := 3
           endDate := 9
           status := if 3 ≤ 5 then "active" else "upcoming"
           teams := [] }] :=
  C7_createLeague_status emptyDB "Spring" none 3 9 5 (by decide) (by decide)

/-! ### C6: end date not after start date is rejected -/

/-- C6: a create request with valid dates and `endDate <= startDate` is
rejected with 400 and creates nothing, and an update request on an
existing league whose merged (existing plus provided) dates satisfy
`endDate <= startDate` is rejected with 400 and modifies nothing. -/
theorem C6_dateOrder_rejected :
    (∀ (db : DB) (name : String) (description : Option String)
        (s e now : Nat), e ≤ s →
      (LeagueController.createLeague db name description
          (some ⟨true, s⟩) (some ⟨true, e⟩) now).1.status = 400 ∧
      (LeagueController.createLeague db name description
          (some ⟨true, s⟩) (some ⟨true, e⟩) now).2 = db) ∧
    (∀ (db : DB) (id : Nat) (name description status : Option String)
        (sOpt eOpt : Option Nat) (league : League),
      (db.leagues.find? fun l => l.lid == id) = some league →
      eOpt.getD league.endDate ≤ sOpt.getD league.startDate →
      (LeagueController.updateLeague db id name description
          (sOpt.map fun v => (⟨true, v⟩ : JsDate))
          (eOpt.map fun v => (⟨true, v⟩ : JsDate)) status).1.status = 400 ∧
      (LeagueController.updateLeague db id name description
          (sOpt.map fun v => (⟨true, v⟩ : JsDate))
          (eOpt.map fun v => (⟨true, v⟩ : JsDate)) status).2 = db) := by
  constructor
  · intro db name description s e now hle
    by_cases hn : (name == "") = true
    · simp [LeagueController.createLeague, hn]
    · simp [LeagueController.createLeague, hn, hle]
  · intro db id name description status sOpt eOpt league hfind hle
    cases sOpt <;> cases eOpt <;>
      simp_all [LeagueController.updateLeague, hfind]

/-- Closed instance of `C6_dateOrder_rejected`: the create half at an
end date equal to the start date, and the update half merging a provided
earlier end date with the stored start date. -/
theorem C6_witness :
    ((LeagueController.createLeague emptyDB "Spring" none
        (some ⟨true, 5⟩) (some ⟨true, 5⟩) 7).1.status = 400 ∧
      (LeagueController.createLeague emptyDB "Spring" none
        (some ⟨true, 5⟩) (some ⟨true, 5⟩) 7).2 = emptyDB) ∧
    ((LeagueController.updateLeague dbLeagueJoin 3 none none
        ((none : Option Nat).map fun v => (⟨true, v⟩ : JsDate))
        ((some 0 : Option Nat).map fun v => (⟨true, v⟩ : JsDate))
        none).1.status = 400 ∧
      (LeagueController.updateLeague dbLeagueJoin 3 none none
        ((none : Option Nat).map fun v => (⟨true, v⟩ : JsDate))
        ((some 0 : Option Nat).map fun v => (⟨true, v⟩ : JsDate))
        none).2 = dbLeagueJoin) :=
  ⟨C6_dateOrder_rejected.1 emptyDB "Spring" none 5 5 7 (by decide),
   C6_dateOrder_rejected.2 dbLeagueJoin 3 none none none none (some 0)
     springLeague (by decide) (by decide)⟩

/-! ### C9: deleteGround guard and cascade -/

/-- C9: with the ground present, `deleteGround` returns 400 and deletes
nothing when some booking references the ground or some match's location
equals the ground's name; when neither exists it deletes exactly the
ground's reviews and the ground itself, leaving bookings and matches
untouched. -/
theorem C9_deleteGround_guard (db : DB) (id : Nat) (ground : Ground)
    (hg : (db.grounds.find? fun g => g.gid == id) = some ground) :
    ((∃ b ∈ db.bookings, b.ground = id) ∨
        (∃ m ∈ db.matchDocs, m.location = ground.name) →
      (GroundController.deleteGround db id).1.status = 400 ∧
      (GroundController.deleteGround db id).2 = db) ∧
    ((∀ b ∈ db.bookings, b.ground ≠ id) →
      (∀ m ∈ db.matchDocs, m.location ≠ ground.name) →
      (GroundController.deleteGround db id).1.status = 200 ∧
      (GroundController.deleteGround db id).2 =
        { db with
          reviews := db.reviews.filter fun r => r.ground != id
          grounds := db.grounds.filter fun g => g.gid != id }) := by
  constructor
  · intro hex
    have hcond : 0 < (db.bookings.filter fun b => b.ground == id).length ∨
        0 < (db.matchDocs.filter fun m => m.location == ground.name).length := by
      simpa [List.length_pos, List.filter_eq_nil_iff] using hex
    rcases hcond with h | h
    · simp [GroundController.deleteGround, hg, h]
    · simp [GroundController.deleteGround, hg, h]
  · intro hb hm
    have h1 : ¬ 0 < (db.bookings.filter fun b => b.ground == id).length := by
      simpa [List.length_pos, List.filter_eq_nil_iff] using hb
    have h2 : ¬ 0 < (db.matchDocs.filter fun m => m.location == ground.name).length := by
      simpa [List.length_pos, List.filter_eq_nil_iff] using hm
    simp [GroundController.deleteGround, hg, h1, h2]

/-- Closed instance of `C9_deleteGround_guard`: the guarded half on the
state where a booking references the ground, and the cascade half on a
state with a stale review and no bookings or matches. -/
theorem C9_witness :
    ((GroundController.deleteGround dbLastMs 7).1.status = 400 ∧
      (GroundController.deleteGround dbLastMs 7).2 = dbLastMs) ∧
    ((GroundController.deleteGround dbReviewed 7).1.status = 200 ∧
      (GroundController.deleteGround dbReviewed 7).2 =
        { dbReviewed with
          reviews := dbReviewed.reviews.filter fun r => r.ground != 7
          grounds := dbReviewed.grounds.filter fun g => g.gid != 7 }) :=
  ⟨(C9_deleteGround_guard dbLastMs 7 pitchGround (by decide)).1
      (Or.inl ⟨lastMsBooking, by decide, by decide⟩),
   (C9_deleteGround_guard dbReviewed 7 pitchGround (by decide)).2
      (by intro b hb; simp [dbReviewed, emptyDB] at hb)
      (by intro m hm; simp [dbReviewed, emptyDB] at hm)⟩

/-! ### C10: review creation recomputes the ground aggregate -/

/-- C10: after a successful `createReview`, the ground's stored
`averageRating` is the arithmetic mean of the ratings of all reviews of
that ground in the resulting state (`jsAverage`, which is 0 on the empty
list) and its `reviewCount` is their number. -/
theorem C10_createReview_average (db : DB) (id : Nat) (r : ℚ)
    (comment : Option String) (userId : Nat) (g : Ground)
    (hg : (db.grounds.find? fun g => g.gid == id) = some g)
    (h1 : 1 ≤ r) (h5 : r ≤ 5) :
    (GroundController.createReview db id (some r) comment userId).1.status = 201 ∧
    ∀ g' ∈ (GroundController.createReview db id (some r) comment userId).2.grounds,
      g'.gid = id →
      g'.averageRating = GroundController.jsAverage
        (((GroundController.createReview db id (some r) comment userId).2.reviews.filter
            fun v => v.ground == id).map fun v => v.rating) ∧
      g'.reviewCount = ((GroundController.createReview db id (some r) comment userId).2.reviews.filter
          fun v => v.ground == id).length := by
  have hr1 : (decide (r < 1)) = false := decide_eq_false (not_lt.mpr h1)
  have hr5 : (decide (5 < r)) = false := decide_eq_false (not_lt.mpr h5)
  constructor
  · simp [GroundController.createReview, hr1, hr5, hg]
  · intro g' hmem hid
    simp only [GroundController.createReview, hr1, hr5, Bool.or_false,
      Bool.false_eq_true, if_false, hg] at hmem ⊢
    rw [List.mem_map] at hmem
    obtain ⟨g0, hg0, hrepl⟩ := hmem
    by_cases hc : (g0.gid == id) = true
    · rw [if_pos hc] at hrepl
      subst hrepl
      simp
    · rw [if_neg hc] at hrepl
      subst hrepl
      exact absurd (beq_iff_eq.mpr hid) (by simpa using hc)

/-- Closed instance of `C10_createReview_average`: a rating 2 joins the
stored rating 4; the updated ground carries mean 3 over 2 reviews. -/
theorem C10_witness :
    (GroundController.createReview dbReviewed 7 (some 2) none 3).1.status = 201 ∧
    ratedGround.averageRating = GroundController.jsAverage
      (((GroundController.createReview dbReviewed 7 (some 2) none 3).2.reviews.filter
          fun v => v.ground == 7).map fun v => v.rating) ∧
    ratedGround.reviewCount = ((GroundController.createReview dbReviewed 7 (some 2) none 3).2.reviews.filter
        fun v => v.ground == 7).length :=
  ⟨(C10_createReview_average dbReviewed 7 2 none 3 pitchGround (by decide)
      (by decide) (by decide)).1,
   (C10_createReview_average dbReviewed 7 2 none 3 pitchGround (by decide)
      (by decide) (by decide)).2 ratedGround
      (by
        have hgr : (GroundController.createReview dbReviewed 7 (some 2) none 3).2.grounds
            = [ratedGround] := by
          norm_num [GroundController.createReview, dbReviewed, emptyDB, pitchGround,
            pitchReview, ratedGround, GroundController.jsAverage]
        rw [hgr]
        exact List.mem_singleton.mpr rfl)
      (by decide)⟩

/-! ### C4: double-booking prevention -/

/-- C4 (amended): with the ground present, `createBooking` rejects with
400 and changes nothing whenever a non-cancelled booking for the same
ground and time slot exists whose date lies in
`[dayStart date, dayStart date + 86399999)` — the day window whose upper
bound excludes the final millisecond of the day. -/
theorem C4_createBooking_reject (db : DB) (groundId date : Nat)
    (time : String) (userId : Nat)
    (hg : (db.grounds.find? fun g => g.gid == groundId).isSome)
    (hex : ∃ b ∈ db.bookings, b.ground = groundId ∧
        BookingController.dayStart date ≤ b.date ∧
        b.date < BookingController.dayStart date + 86399999 ∧
        b.time = time ∧ b.status ≠ "cancelled") :
    (BookingController.createBooking db groundId date time userId).1.status = 400 ∧
    (BookingController.createBooking db groundId date time userId).2 = db := by
  obtain ⟨g, hgeq⟩ := Option.isSome_iff_exists.mp hg
  obtain ⟨b, hbmem, hbg, hble, hblt, hbt, hbs⟩ := hex
  have hfound : (db.bookings.find? fun b =>
      b.ground == groundId &&
      decide (BookingController.dayStart date ≤ b.date) &&
      decide (b.date < BookingController.dayStart date + 86399999) &&
      b.time == time && b.status != "cancelled").isSome :=
    List.find?_isSome.mpr ⟨b, hbmem, by simp [hbg, hble, hblt, hbt, hbs]⟩
  obtain ⟨b', hb'⟩ := Option.isSome_iff_exists.mp hfound
  simp [BookingController.createBooking, hgeq, hb']

/-- Closed instance of `C4_createBooking_reject` at a mid-day conflict. -/
theorem C4_witness :
    (BookingController.createBooking dbNoon 7 39600000 "10:00" 2).1.status = 400 ∧
    (BookingController.createBooking dbNoon 7 39600000 "10:00" 2).2 = dbNoon :=
  C4_createBooking_reject dbNoon 7 39600000 "10:00" 2 (by decide)
    ⟨noonBooking, by decide, by decide, by decide, by decide, by decide, by decide⟩

/-- Counterexample to C4 as stated: a confirmed booking whose stored date
is the final millisecond of the day (23:59:59.999) escapes the `$lt`
day-window check, so a second non-cancelled booking for the same ground,
calendar day, and time slot is created (201) and both coexist. -/
theorem C4_counterexample :
    BookingController.dayStart lastMsBooking.date = BookingController.dayStart 86399999 ∧
    lastMsBooking.ground = 7 ∧ lastMsBooking.time = "10:00" ∧
    lastMsBooking.status ≠ "cancelled" ∧
    (BookingController.createBooking dbLastMs 7 86399999 "10:00" 2).1.status = 201 ∧
    ((BookingController.createBooking dbLastMs 7 86399999 "10:00" 2).2.bookings.filter
        fun b => b.ground == 7 &&
          (BookingController.dayStart b.date == BookingController.dayStart 86399999) &&
          b.time == "10:00" && b.status != "cancelled").length = 2 := by
  refine ⟨rfl, rfl, rfl, by decide, ?_, ?_⟩ <;> decide

/-! ### C3: delete-team cascade -/

/-- Helper: unsetting the team reference on every matching user leaves no
user pointing at the team. -/
theorem cascade_users_clear (users : List User) (id : Nat) :
    ∀ u ∈ users.map fun u =>
        if u.team == some id then { u with team := none } else u,
      u.team ≠ some id := by
  intro u hu
  rw [List.mem_map] at hu
  obtain ⟨u0, _, hequ⟩ := hu
  subst hequ
  by_cases hc : (u0.team == some id) = true
  · simp [hc]
  · rw [if_neg hc]
    simpa using hc

/-- C3 (amended): after a successful `deleteTeam` of either
team-controller variant (transactional soft delete, and hard delete), the
team's id is absent from every user's team reference and from every
league's roster.  (The booking-file variant performs no league cleanup;
see the counterexample.) -/
theorem C3_deleteTeam_cascade :
    (∀ (db : DB) (id : Nat) (t : Team),
      (db.teams.find? fun x => x.tid == id) = some t →
      (∀ u ∈ (TeamController1.deleteTeam db id).2.users, u.team ≠ some id) ∧
      (∀ l ∈ (TeamController1.deleteTeam db id).2.leagues, id ∉ l.teams)) ∧
    (∀ (db : DB) (id : Nat) (t : Team),
      (db.teams.find? fun x => x.tid == id) = some t →
      (∀ u ∈ (TeamController2.deleteTeam db id).2.users, u.team ≠ some id) ∧
      (∀ l ∈ (TeamController2.deleteTeam db id).2.leagues, id ∉ l.teams)) := by
  constructor
  · intro db id t hfind
    refine ⟨?_, ?_⟩
    · simpa [TeamController1.deleteTeam, hfind] using cascade_users_clear db.users id
    · simp [TeamController1.deleteTeam, hfind]
  · intro db id t hfind
    refine ⟨?_, ?_⟩
    · simpa [TeamController2.deleteTeam, hfind] using cascade_users_clear db.users id
    · simp [TeamController2.deleteTeam, hfind]

/-- Closed instance of `C3_deleteTeam_cascade` on the rostered state. -/
theorem C3_witness :
    bobCleared.team ≠ some 2 ∧ 2 ∉ clearedLeague.teams :=
  ⟨(C3_deleteTeam_cascade.1 dbRostered 2 eaglesTeam (by decide)).1 bobCleared (by decide),
   (C3_deleteTeam_cascade.1 dbRostered 2 eaglesTeam (by decide)).2 clearedLeague (by decide)⟩

/-- Counterexample to C3 as stated: the `deleteTeam` variant embedded in
the booking controller deletes the team and clears user references but
performs no league cleanup, so after its success the deleted id is still
in a league's roster. -/
theorem C3_counterexample :
    (BookingTeams.deleteTeam dbRostered 2).1.status = 200 ∧
    ((BookingTeams.deleteTeam dbRostered 2).2.teams.all fun t => t.tid != 2) = true ∧
    ∃ l ∈ (BookingTeams.deleteTeam dbRostered 2).2.leagues, 2 ∈ l.teams := by
  refine ⟨by decide, by decide, ?_⟩
  exact ⟨rosterLeague, by decide, by decide⟩

/-! ### C5: match capacity and join-once -/

/-- Helper: every branch of `joinMatch` either leaves the state unchanged
or, when the capacity and duplicate checks passed on the found match,
appends the one new player entry to every match document with that id. -/
theorem joinMatch_state (db : DB) (id userId : Nat) (pn ci : String)
    (tn : Option String) (now : Nat) :
    (MatchController.joinMatch db id userId pn ci tn now).2 = db ∨
    ∃ m, (db.matchDocs.find? fun x => x.mid == id) = some m ∧
      m.joinedPlayers.length < m.maxPlayers ∧
      (∀ p ∈ m.joinedPlayers, p.user ≠ userId) ∧
      (MatchController.joinMatch db id userId pn ci tn now).2 =
        { db with matchDocs := db.matchDocs.map fun x =>
            if x.mid == id then
              { x with joinedPlayers := x.joinedPlayers ++
                  [{ user := userId, playerName := pn,
                     teamName := tn.getD "", contactInfo := ci }] }
            else x } := by
  unfold MatchController.joinMatch
  split
  · exact Or.inl rfl
  · split
    · exact Or.inl rfl
    · rename_i m hfind
      split
      · exact Or.inl rfl
      · rename_i hfull
        split
        · exact Or.inl rfl
        · rename_i hdup
          split
          · exact Or.inl rfl
          · split
            · exact Or.inl rfl
            · refine Or.inr ⟨m, hfind, ?_, ?_, rfl⟩
              · simpa using hfull
              · intro p hp hpu
                exact hdup (List.any_eq_true.mpr ⟨p, hp, by simp [hpu]⟩)

/-- C5 (amended): joining a match whose `joinedPlayers` count equals
`maxPlayers` fails with 400 "Match is already full" and changes nothing; a
user already in `joinedPlayers` cannot join again; and `joinMatch`
preserves the invariant `joinedPlayers.length ≤ maxPlayers` with at most
one entry per user (on states whose match ids are distinct).  `updateMatch`
does not preserve the invariant; see the counterexample. -/
theorem C5_joinMatch_capacity :
    (∀ (db : DB) (id userId : Nat) (pn ci : String) (tn : Option String)
        (now : Nat) (m : Match),
      (db.matchDocs.find? fun x => x.mid == id) = some m →
      pn ≠ "" → ci ≠ "" →
      m.joinedPlayers.length = m.maxPlayers →
      (MatchController.joinMatch db id userId pn ci tn now).1 =
          ⟨400, "Match is already full"⟩ ∧
      (MatchController.joinMatch db id userId pn ci tn now).2 = db) ∧
    (∀ (db : DB) (id userId : Nat) (pn ci : String) (tn : Option String)
        (now : Nat) (m : Match) (p : JoinedPlayer),
      (db.matchDocs.find? fun x => x.mid == id) = some m →
      pn ≠ "" → ci ≠ "" →
      p ∈ m.joinedPlayers → p.user = userId →
      (MatchController.joinMatch db id userId pn ci tn now).1.status = 400 ∧
      (MatchController.joinMatch db id userId pn ci tn now).2 = db) ∧
    (∀ (db : DB) (id userId : Nat) (pn ci : String) (tn : Option String)
        (now : Nat),
      (db.matchDocs.map fun m => m.mid).Nodup →
      (∀ m ∈ db.matchDocs, matchInv m) →
      ∀ m ∈ (MatchController.joinMatch db id userId pn ci tn now).2.matchDocs,
        matchInv m) := by
  refine ⟨?_, ?_, ?_⟩
  · intro db id userId pn ci tn now m hfind hpn hci hlen
    have h0 : (pn == "" || ci == "") = false := by simp [hpn, hci]
    have hfull : (decide (m.maxPlayers ≤ m.joinedPlayers.length)) = true :=
      decide_eq_true (le_of_eq hlen.symm)
    constructor <;>
      simp [MatchController.joinMatch, h0, hfind, hfull]
  · intro db id userId pn ci tn now m p hfind hpn hci hp hpu
    have h0 : (pn == "" || ci == "") = false := by simp [hpn, hci]
    by_cases hfull : (decide (m.maxPlayers ≤ m.joinedPlayers.length)) = true
    · constructor <;> simp [MatchController.joinMatch, h0, hfind, hfull]
    · have hdup : (m.joinedPlayers.any fun q => q.user == userId) = true :=
        List.any_eq_true.mpr ⟨p, hp, by simp [hpu]⟩
      constructor <;>
        simp [MatchController.joinMatch, h0, hfind, hfull, hdup]
  · intro db id userId pn ci tn now hmids hinv m' hm'
    rcases joinMatch_state db id userId pn ci tn now with hstate | ⟨m, hfind, hlt, hnew, hstate⟩
    · rw [hstate] at hm'
      exact hinv m' hm'
    · rw [hstate] at hm'
      simp only [List.mem_map] at hm'
      obtain ⟨x, hx, heqx⟩ := hm'
      subst heqx
      by_cases hc : (x.mid == id) = true
      · rw [if_pos hc]
        have hxm : x = m := by
          have hmmem : m ∈ db.matchDocs := List.mem_of_find?_eq_some hfind
          have hmid : m.mid = id := by simpa using List.find?_some hfind
          have hxid : x.mid = id := by simpa using hc
          exact List.inj_on_of_nodup_map hmids hx hmmem (by rw [hxid, hmid])
        subst hxm
        obtain ⟨hle, hnd⟩ := hinv x hx
        constructor
        · simpa using Nat.succ_le_of_lt hlt
        · simp only [List.map_append, List.map_cons, List.map_nil]
          rw [List.nodup_append]
          refine ⟨hnd, List.nodup_singleton _, ?_⟩
          intro a ha hb
          rw [List.mem_singleton] at hb
          subst hb
          rw [List.mem_map] at ha
          obtain ⟨p, hpmem, hpe⟩ := ha
          exact hnew p hpmem hpe
      · rw [if_neg hc]
        exact hinv x hx

/-- Closed instance of `C5_joinMatch_capacity`: joining the full match
fails with the capacity message and leaves the state unchanged, and the
invariant holds after a join attempt. -/
theorem C5_witness :
    ((MatchController.joinMatch dbFullMatch 1 3 "Cal" "c@x.y" none 0).1 =
        ⟨400, "Match is already full"⟩ ∧
      (MatchController.joinMatch dbFullMatch 1 3 "Cal" "c@x.y" none 0).2 = dbFullMatch) ∧
    matchInv fullMatch :=
  ⟨(C5_joinMatch_capacity.1 dbFullMatch 1 3 "Cal" "c@x.y" none 0 fullMatch
      (by decide) (by decide) (by decide) (by decide)),
   (C5_joinMatch_capacity.2.2 dbFullMatch 1 3 "Cal" "c@x.y" none 0
      (by decide) (by intro m hm; fin_cases hm; exact ⟨by decide, by decide⟩)
      fullMatch (by decide))⟩

/-- Counterexample to C5 as stated: `updateMatch` lowers `maxPlayers`
below the current number of joined players (admin update with a match
type and `maxPlayers = 1` on a match with two joined players), so not
every operation preserves the claimed invariant. -/
theorem C5_counterexample :
    (∀ m ∈ dbFullMatch.matchDocs, matchInv m) ∧
    ¬ (∀ m ∈ (MatchController.updateMatch dbFullMatch 1 9 "admin" none none
        none none (some "5v5") none none (some 1)).2.matchDocs, matchInv m) := by
  constructor
  · decide
  · decide

/-! ### C8: updateTeam never changes stored passwords -/

/-- Helper: the identity correspondence for an unchanged team list. -/
theorem teams_id_preserves (db : DB) :
    ∀ t' ∈ db.teams, ∃ t ∈ db.teams, t.tid = t'.tid ∧ t.password = t'.password :=
  fun t' h => ⟨t', h, rfl, rfl⟩

/-- Helper: replacing every team with the found team's id by a document
carrying the found team's id and password preserves id-password pairs. -/
theorem update_preserves (db : DB) (id : Nat) {newT : Team} (t' : Team)
    (ht' : t' ∈ db.teams.map fun t => if t.tid == id then newT else t)
    (hex : ∃ t ∈ db.teams, t.tid = newT.tid ∧ t.password = newT.password) :
    ∃ t ∈ db.teams, t.tid = t'.tid ∧ t.password = t'.password := by
  rw [List.mem_map] at ht'
  obtain ⟨t0, ht0, heq⟩ := ht'
  subst heq
  by_cases hc : (t0.tid == id) = true
  · rw [if_pos hc]
    exact hex
  · rw [if_neg hc]
    exact ⟨t0, ht0, rfl, rfl⟩

/-- C8: no variant of `updateTeam` ever changes a stored password: every
team in the post state has a pre-state team with the same id and the same
password, even when the request body carries a password value. -/
theorem C8_updateTeam_password :
    (∀ (db : DB) (id : Nat) (req : TeamReq),
      ∀ t' ∈ (TeamController1.updateTeam db id req).2.teams,
        ∃ t ∈ db.teams, t.tid = t'.tid ∧ t.password = t'.password) ∧
    (∀ (db : DB) (id : Nat) (name captain logo email : Option String),
      ∀ t' ∈ (TeamController2.updateTeam db id name captain logo email).2.teams,
        ∃ t ∈ db.teams, t.tid = t'.tid ∧ t.password = t'.password) ∧
    (∀ (db : DB) (id : Nat) (name captain logo email : Option String),
      ∀ t' ∈ (BookingTeams.updateTeam db id name captain logo email).2.teams,
        ∃ t ∈ db.teams, t.tid = t'.tid ∧ t.password = t'.password) := by
  refine ⟨?_, ?_, ?_⟩
  · intro db id req t' ht'
    simp only [TeamController1.updateTeam] at ht'
    repeat' split at ht'
    all_goals first
      | exact teams_id_preserves db t' ht'
      | exact update_preserves db id t' ht'
          ⟨_, List.mem_of_find?_eq_some (by assumption), by rfl, by rfl⟩
  · intro db id name captain logo email t' ht'
    simp only [TeamController2.updateTeam] at ht'
    repeat' split at ht'
    all_goals first
      | exact teams_id_preserves db t' ht'
      | exact update_preserves db id t' ht'
          ⟨_, List.mem_of_find?_eq_some (by assumption), by rfl, by rfl⟩
  · intro db id name captain logo email t' ht'
    simp only [BookingTeams.updateTeam] at ht'
    repeat' split at ht'
    all_goals first
      | exact teams_id_preserves db t' ht'
      | exact update_preserves db id t' ht'
          ⟨_, List.mem_of_find?_eq_some (by assumption), by rfl, by rfl⟩

/-- Closed instance of `C8_updateTeam_password`: renaming the Eagles with
a request that also carries a new password leaves the stored password
paired with the team id. -/
theorem C8_witness :
    ∃ t ∈ dbRostered.teams, t.tid = hawksTeam.tid ∧ t.password = hawksTeam.password :=
  C8_updateTeam_password.1 dbRostered 2
    { name := some "Hawks", captain := none, password := some "newpass99",
      logo := none, email := none }
    hawksTeam (by decide)

/-! ### C2: joinLeague conditions and effect -/

/-- C2 (amended): with the user, the user's team, and the league all
present, `joinLeague` succeeds exactly when the requester is the team's
captain, the team's `currentLeague` is unset (regardless of that league's
status), the team is not already in the league's roster, and the league is
not completed; on success it pushes the team into the league's roster and
sets the team's `currentLeague`. -/
theorem C2_joinLeague_conditions (db : DB) (id userId : Nat)
    (user : User) (tid : Nat) (team : Team) (league : League)
    (hu : (db.users.find? fun u => u.uid == userId) = some user)
    (ht : user.team = some tid)
    (htm : (db.teams.find? fun t => t.tid == tid) = some team)
    (hl : (db.leagues.find? fun l => l.lid == id) = some league) :
    ((LeagueController.joinLeague db id userId).1.status = 200 ↔
      team.captain = user.name ∧ team.currentLeague = none ∧
      team.tid ∉ league.teams ∧ league.status ≠ "completed") ∧
    (team.captain = user.name → team.currentLeague = none →
      team.tid ∉ league.teams → league.status ≠ "completed" →
      (LeagueController.joinLeague db id userId).2 =
        { db with
          leagues := db.leagues.map fun l =>
            if l.lid == id then { l with teams := l.teams ++ [team.tid] } else l
          teams := db.teams.map fun t =>
            if t.tid == team.tid then { t with currentLeague := some id } else t }) := by
  have hbind : (user.team.bind fun tid => db.teams.find? fun t => t.tid == tid) = some team := by
    rw [ht]
    exact htm
  by_cases h1 : team.captain = user.name
  · by_cases h2 : team.currentLeague = none
    · by_cases h3 : team.tid ∈ league.teams
      · constructor
        · simp [LeagueController.joinLeague, hu, hbind, hl, h1, h2, h3]
        · intro _ _ hmem _
          exact absurd h3 hmem
      · by_cases h4 : league.status = "completed"
        · constructor
          · simp [LeagueController.joinLeague, hu, hbind, hl, h1, h2, h3, h4]
          · intro _ _ _ hst
            exact absurd h4 hst
        · constructor
          · simp [LeagueController.joinLeague, hu, hbind, hl, h1, h2, h3, h4]
          · intro _ _ _ _
            simp [LeagueController.joinLeague, hu, hbind, hl, h1, h2, h3, h4]
    · constructor
      · simp [LeagueController.joinLeague, hu, hbind, hl, h1, h2]
      · intro _ h2' _ _
        exact absurd h2' h2
  · constructor
    · simp [LeagueController.joinLeague, hu, hbind, hl, h1]
    · intro h1' _ _ _
      exact absurd h1' h1

/-- Closed instance of `C2_joinLeague_conditions`: the captain joins the
open league; the call succeeds and performs both updates. -/
theorem C2_witness :
    (LeagueController.joinLeague dbLeagueJoin 3 5).1.status = 200 ∧
    (LeagueController.joinLeague dbLeagueJoin 3 5).2 =
      { dbLeagueJoin with
        leagues := dbLeagueJoin.leagues.map fun l =>
          if l.lid == 3 then { l with teams := l.teams ++ [eaglesTeam.tid] } else l
        teams := dbLeagueJoin.teams.map fun t =>
          if t.tid == eaglesTeam.tid then { t with currentLeague := some 3 } else t } :=
  ⟨(C2_joinLeague_conditions dbLeagueJoin 3 5 aliceUser 2 eaglesTeam springLeague
      (by decide) (by decide) (by decide) (by decide)).1.mpr
      ⟨by decide, by decide, by decide, by decide⟩,
   (C2_joinLeague_conditions dbLeagueJoin 3 5 aliceUser 2 eaglesTeam springLeague
      (by decide) (by decide) (by decide) (by decide)).2
      (by decide) (by decide) (by decide) (by decide)⟩

/-- Counterexample to C2 as stated: Bob belongs to the Eagles, the Eagles
are in no league, the league is active and does not contain them — none of
the claim's failure conditions holds — yet `joinLeague` fails with 403
because Bob is not the captain. -/
theorem C2_counterexample :
    bobUser.team = some eaglesTeam.tid ∧
    eaglesTeam.currentLeague = none ∧
    eaglesTeam.tid ∉ springLeague.teams ∧
    springLeague.status ≠ "completed" ∧
    (LeagueController.joinLeague dbLeagueJoin 3 1).1 =
      ⟨403, "Only team captains can join leagues"⟩ ∧
    (LeagueController.joinLeague dbLeagueJoin 3 1).2 = dbLeagueJoin := by
  refine ⟨rfl, rfl, by decide, by decide, by decide, by decide⟩

/-! ### C1: duplicate team names at creation -/

/-- Helper: `dropWhile` is idempotent. -/
theorem dropWhile_twice {α : Type} (p : α → Bool) (l : List α) :
    (l.dropWhile p).dropWhile p = l.dropWhile p := by
  induction l with
  | nil => rfl
  | cons a l ih =>
    by_cases h : p a
    · simp [List.dropWhile_cons, h, ih]
    · simp [List.dropWhile_cons, h]

/-- Helper: `dropWhile` yields nil or a head on which the predicate
fails. -/
theorem dropWhile_head_false {α : Type} (p : α → Bool) (l : List α) :
    l.dropWhile p = [] ∨ ∃ c cs, l.dropWhile p = c :: cs ∧ p c = false := by
  induction l with
  | nil => exact Or.inl rfl
  | cons a l ih =>
    by_cases h : p a
    · simpa [List.dropWhile_cons, h] using ih
    · exact Or.inr ⟨a, l, by simp [List.dropWhile_cons, h], by simpa using h⟩

/-- Helper: trimming is idempotent. -/
theorem jsTrimList_idem (l : List Char) :
    jsTrimList (jsTrimList l) = jsTrimList l := by
  obtain ⟨pre, hpre⟩ := List.dropWhile_suffix (l := (l.dropWhile jsIsWs).reverse) jsIsWs
  have hd2 : l.dropWhile jsIsWs =
      ((l.dropWhile jsIsWs).reverse.dropWhile jsIsWs).reverse ++ pre.reverse := by
    have hrev := congrArg List.reverse hpre
    simpa [List.reverse_append] using hrev.symm
  have h1 : (((l.dropWhile jsIsWs).reverse.dropWhile jsIsWs).reverse).dropWhile jsIsWs =
      ((l.dropWhile jsIsWs).reverse.dropWhile jsIsWs).reverse := by
    cases hyr : ((l.dropWhile jsIsWs).reverse.dropWhile jsIsWs).reverse with
    | nil => rfl
    | cons c rest =>
      rcases dropWhile_head_false jsIsWs l with hnil | ⟨c', cs', hdd, hpc⟩
      · rw [hnil] at hyr
        simp at hyr
      · rw [hyr] at hd2
        rw [hdd] at hd2
        have hc : c' = c := by
          simpa using congrArg (fun x => x.headD c') hd2
        have hcws : jsIsWs c = false := by
          rw [← hc]
          exact hpc
        simp [List.dropWhile_cons, hcws]
  unfold jsTrimList
  rw [h1, List.reverse_reverse, dropWhile_twice]

/-- Helper: normalizing a trimmed name equals normalizing the name, so
the controller's `normalizeTeamName(trimmedName)` is the normalization of
the raw request name. -/
theorem normalizeTeamName_jsTrim (s : String) :
    normalizeTeamName (jsTrim s) = normalizeTeamName s := by
  have hdata : (jsTrim s).data = jsTrimList s.data := rfl
  unfold normalizeTeamName
  by_cases h2 : jsTrim s = ""
  · rw [if_pos h2]
    by_cases h1 : s = ""
    · rw [if_pos h1]
    · rw [if_neg h1]
      have hnil : jsTrimList s.data = [] := by
        have hd := congrArg String.data h2
        rw [hdata] at hd
        exact hd
      have hcore : normalizeCore s.data = [] := by
        unfold normalizeCore
        rw [hnil]
        rfl
      rw [hcore]
  · rw [if_neg h2]
    have h1 : s ≠ "" := by
      intro hs
      exact h2 (by rw [hs]; rfl)
    rw [if_neg h1]
    have hcore : normalizeCore (jsTrim s).data = normalizeCore s.data := by
      rw [hdata]
      unfold normalizeCore
      rw [jsTrimList_idem]
    rw [hcore]

/-- C1 (amended): if the request name's `normalizeTeamName`-normalization
is non-empty and equals an existing team's normalized name, the
`normalizeTeamName`-based `createTeam` fails with 400 and creates no team
(a name normalizing to the empty string bypasses that duplicate check —
see the counterexample); and for the regex-based `createTeam`, whose
duplicate search interpolates the sanitized name unescaped into
`new RegExp('^' + name + '$', 'i')`: when the sanitized (trimmed,
whitespace-collapsed) name is free of regex metacharacters — so the
engine's test coincides with ASCII case-insensitive equality — and equals
an existing team's stored name up to ASCII case, it fails with 400 and
creates no team. -/
theorem C1_createTeam_conflict :
    (∀ (hashC hashS : String → String) (db : DB)
        (name captain password : String) (logo email : Option String) (t : Team),
      t ∈ db.teams →
      normalizeTeamName t.name = normalizeTeamName name →
      normalizeTeamName name ≠ "" →
      (TeamController2.createTeam hashC hashS db name captain password logo email).1.status = 400 ∧
      (TeamController2.createTeam hashC hashS db name captain password logo email).2 = db) ∧
    (∀ (regexTest : String → String → Bool) (hashS : String → String)
        (db : DB) (req : TeamReq) (t : Team),
      (∀ pat s, regexSafe pat = true → regexTest pat s = ciEq pat s) →
      t ∈ db.teams →
      regexSafe ((TeamController1.sanitizeTeamData req).name.getD "") = true →
      ciEq ((TeamController1.sanitizeTeamData req).name.getD "") t.name = true →
      (TeamController1.createTeam regexTest hashS db req).1.status = 400 ∧
      (TeamController1.createTeam regexTest hashS db req).2 = db) := by
  constructor
  · intro hashC hashS db name captain password logo email t hmem hnorm hne
    have htname : t.name ≠ "" := by
      intro h
      apply hne
      rw [← hnorm, h]
      rfl
    have hdup : TeamController2.dupMatch (normalizeTeamName (jsTrim name)) t = true := by
      unfold TeamController2.dupMatch
      rw [normalizeTeamName_jsTrim]
      rw [if_neg (by simp [htname, hne])]
      simp [hnorm, hne]
    simp only [TeamController2.createTeam]
    split
    · exact ⟨rfl, rfl⟩
    · split
      · exact ⟨rfl, rfl⟩
      · obtain ⟨t', ht'⟩ := Option.isSome_iff_exists.mp
          (List.find?_isSome.mpr ⟨t, hmem, hdup⟩)
        rw [ht']
        exact ⟨rfl, rfl⟩
  · intro regexTest hashS db req t hsem hmem hsafe hci
    have hre : regexTest ((TeamController1.sanitizeTeamData req).name.getD "") t.name = true := by
      rw [hsem _ _ hsafe]
      exact hci
    have hfound : (db.teams.find? fun x =>
        regexTest ((TeamController1.sanitizeTeamData req).name.getD "") x.name).isSome :=
      List.find?_isSome.mpr ⟨t, hmem, hre⟩
    simp only [TeamController1.createTeam]
    split
    · exact ⟨rfl, rfl⟩
    · obtain ⟨t', ht'⟩ := Option.isSome_iff_exists.mp hfound
      rw [ht']
      exact ⟨rfl, rfl⟩

/-- Closed instance of `C1_createTeam_conflict`: creating "EAGLES" next to
the stored "Eagles" is rejected by both variants and neither changes the
state; the regex half is instantiated with `ciEq` as the engine, which
satisfies the semantic hypothesis on `regexSafe` patterns. -/
theorem C1_witness :
    ((TeamController2.createTeam (fun s => s) (fun s => s) dbRostered
        "EAGLES" "Cap" "secret1" none none).1.status = 400 ∧
      (TeamController2.createTeam (fun s => s) (fun s => s) dbRostered
        "EAGLES" "Cap" "secret1" none none).2 = dbRostered) ∧
    ((TeamController1.createTeam ciEq (fun s => s) dbRostered
        { name := some "EAGLES", captain := some "Cap",
          password := some "secret1", logo := none, email := none }).1.status = 400 ∧
      (TeamController1.createTeam ciEq (fun s => s) dbRostered
        { name := some "EAGLES", captain := some "Cap",
          password := some "secret1", logo := none, email := none }).2 = dbRostered) :=
  ⟨C1_createTeam_conflict.1 (fun s => s) (fun s => s) dbRostered
      "EAGLES" "Cap" "secret1" none none eaglesTeam (by decide) (by decide) (by decide),
   C1_createTeam_conflict.2 ciEq (fun s => s) dbRostered
      { name := some "EAGLES", captain := some "Cap",
        password := some "secret1", logo := none, email := none }
      eaglesTeam (fun _ _ _ => rfl) (by decide) (by decide) (by decide)⟩

/-- Counterexample to C1 as stated: "!!!" and the stored "???" have equal
normalized names (both normalize to the empty string), yet `createTeam`
succeeds with 201 and a second team is created, because the duplicate
search treats an empty normalized candidate as matching nothing. -/
theorem C1_counterexample :
    normalizeTeamName "!!!" = normalizeTeamName qqqTeam.name ∧
    qqqTeam ∈ dbPunct.teams ∧
    (TeamController2.createTeam (fun s => s) (fun s => s) dbPunct
      "!!!" "Cap" "secret1" none none).1.status = 201 ∧
    (TeamController2.createTeam (fun s => s) (fun s => s) dbPunct
      "!!!" "Cap" "secret1" none none).2.teams.length = 2 := by
  refine ⟨by decide, by decide, by decide, by decide⟩

end Backend
